import Mathlib

/-!
Verification of the steam-deck-restock stock checker.

The development shallowly embeds the JavaScript sources:

* the device catalog `DEVICES`, the per-device availability predicate
  `checkDeviceAvailability` and the catalog-wide classification
  `checkAllDevicesAvailability` from the main checker script
  (the variant whose matching policy is: the button text contains the
  device display name and does not contain the marker "Out of stock");
* the older variant of the script whose matching policy instead requires
  every configured search term to occur in the button text
  (`DeviceA`, `DEVICES_A`, `checkDeviceAvailabilityA`);
* the notification layer (`sendNotification` and the message
  constructors) and the run orchestrator `checkSteamDeckStockRun`,
  modelled as a pure function from the externally supplied inputs
  (device code, optional push client behaviour, scrape outcome,
  notify-on-success flag, current timestamp) to the list of observable
  events of the run together with the propagated error, if any.

JavaScript string containment (`String.prototype.includes`) is modelled
as contiguous sublist containment on the underlying character lists.
-/

namespace SteamDeck

/-- JavaScript `s.includes(sub)`: `sub` occurs contiguously in `s`. -/
def includes (s sub : String) : Bool := decide (sub.data <:+: s.data)

/-- One entry of the device catalog of the main checker script. -/
structure Device where
  name : String
  priority : Int
  sound : String
deriving Repr, DecidableEq

/-- Catalog entry for code oled-512 of the main checker script. -/
def oled512Device : Device := ⟨"Steam Deck OLED 512GB", 1, "magic"⟩

/-- Catalog entry for code oled-1tb of the main checker script. -/
def oled1tbDevice : Device := ⟨"Steam Deck OLED 1TB", 1, "magic"⟩

/-- Catalog entry for code lcd-256 of the main checker script. -/
def lcd256Device : Device := ⟨"Steam Deck LCD 256GB", 0, "pushover"⟩

/-- Catalog entry for code lcd-512 of the main checker script. -/
def lcd512Device : Device := ⟨"Steam Deck LCD 512GB", 0, "pushover"⟩

/-- The device catalog `DEVICES` of the main checker script, in
declaration order. -/
def DEVICES : List (String × Device) :=
  [("oled-512", oled512Device), ("oled-1tb", oled1tbDevice),
   ("lcd-256", lcd256Device), ("lcd-512", lcd512Device)]

/-- `checkDeviceAvailability` of the main script: some cart-button text
contains the device name and does not contain "Out of stock". -/
def checkDeviceAvailability (cartButtonTexts : List String) (device : Device) : Bool :=
  cartButtonTexts.any (fun buttonText =>
    includes buttonText device.name && !(includes buttonText "Out of stock"))

/-- `checkAllDevicesAvailability` of the main script: the codes of the
catalog entries whose availability check succeeds, in catalog order. -/
def checkAllDevicesAvailability (cartButtonTexts : List String) : List String :=
  (DEVICES.filter (fun p => checkDeviceAvailability cartButtonTexts p.2)).map
    (fun p => p.1)

/-- The message/title/priority/sound record handed to the external
push delivery capability. -/
structure NotificationMsg where
  message : String
  title : String
  priority : Int
  sound : String
deriving Repr, DecidableEq

/-- Observable events of one run: the scrape was started, or a
notification call was made with a composed message. -/
inductive Event where
  | scrapeInvoked : Event
  | notified : NotificationMsg → Event
deriving Repr, DecidableEq

/-- The message of a notified event, if any. -/
def eventMsg : Event → Option NotificationMsg
  | Event.scrapeInvoked => none
  | Event.notified m => some m

/-- The composed messages of the notification calls of a run. -/
def notifiedMsgs (events : List Event) : List NotificationMsg :=
  events.filterMap eventMsg

/-- External behaviour of an initialized push client: for each message
either a delivery result or a delivery error. The client is absent
(`none` in the functions below) when credentials are missing. -/
def PushClient : Type := NotificationMsg → Except String Nat

/-- `sendNotification` of the main script. Without a client it logs and
returns (no message is delivered, no error is possible); with a client
it delivers once, returning the result or re-raising the delivery
error. -/
def sendNotification (pushover : Option PushClient) (message : String)
    (title : String) (priority : Int) (sound : String) :
    Except String (Option Nat) :=
  match pushover with
  | none => Except.ok none
  | some send =>
    match send ⟨message, title, priority, sound⟩ with
    | Except.ok r => Except.ok (some r)
    | Except.error e => Except.error e

/-- `sendNotification` of check-steam-deck.js: same shape, but the sound
is derived from the priority. -/
def sendNotificationLegacy (pushover : Option PushClient) (message : String)
    (title : String) (priority : Int) : Except String (Option Nat) :=
  match pushover with
  | none => Except.ok none
  | some send =>
    match send ⟨message, title, priority,
        if 0 < priority then "magic" else "pushover"⟩ with
    | Except.ok r => Except.ok (some r)
    | Except.error e => Except.error e

/-- Send an already composed message through `sendNotification`. -/
def sendMsg (pushover : Option PushClient) (m : NotificationMsg) :
    Except String (Option Nat) :=
  sendNotification pushover m.message m.title m.priority m.sound

/-- JavaScript `toUpperCase` on the device display names (ASCII):
uppercase every character. -/
def strToUpper (s : String) : String := ⟨s.data.map Char.toUpper⟩

/-- The monitored store page URL. -/
def STORE_URL : String := "https://store.steampowered.com/sale/steamdeckrefurbished/"

/-- JavaScript `Array.prototype.join` with a separator. -/
def joinWith (sep : String) : List String → String
  | [] => ""
  | [x] => x
  | x :: y :: xs => x ++ sep ++ joinWith sep (y :: xs)

/-- `DEVICES[code].name` as used on the codes returned by
`checkAllDevicesAvailability` (all of which are catalog keys). -/
def deviceName (code : String) : String :=
  ((DEVICES.lookup code).map (fun d => d.name)).getD ""

/-- The in-stock message of the main script for the target device. -/
def inStockNotification (device : Device) : NotificationMsg :=
  { message := "🎉 " ++ device.name ++ " is now available for purchase!\n\nCheck: " ++ STORE_URL,
    title := "🚨 " ++ strToUpper device.name ++ " IN STOCK! 🚨",
    priority := device.priority,
    sound := device.sound }

/-- The other-devices-available message of the main script. -/
def othersNotification (device : Device) (availableDevices : List String) :
    NotificationMsg :=
  { message := "ℹ️ Your monitored device (" ++ device.name ++ ") is not available, but other models are in stock:\n\n" ++ joinWith "\n" ((availableDevices.map deviceName).map (fun n => "• " ++ n)) ++ "\n\nCheck: " ++ STORE_URL,
    title := "📦 Other Steam Decks Available",
    priority := 0,
    sound := "pushover" }

/-- The heartbeat message of the main script, sent when nothing is in
stock and the notify-on-success flag is set. -/
def heartbeatNotification (device : Device) (now : String) : NotificationMsg :=
  { message := "✅ Stock check completed successfully for " ++ device.name ++ ".\n\nNo Steam Deck models available at this time.\n\nChecked at: " ++ now,
    title := "✅ Steam Deck Check Complete",
    priority := 0,
    sound := "pushover" }

/-- The error message of the main script, composed in the catch block. -/
def errorNotification (device : Device) (errMsg now : String) : NotificationMsg :=
  { message := "🚨 Steam Deck checker encountered an error:\n\n" ++ errMsg ++ "\n\nDevice: " ++ device.name ++ "\nTime: " ++ now,
    title := "🔥 Steam Deck Checker Error",
    priority := 1,
    sound := "siren" }

/-- The configuration error text of the main script for an unknown
device code. -/
def unknownDeviceError (deviceCode : String) : String :=
  "Unknown device code: " ++ deviceCode ++ ". Available: " ++ joinWith ", " (DEVICES.map (fun p => p.1))

/-- The notification branch of `checkSteamDeckStock` of the main
script: in-stock message when the target device is available, otherwise
the other-devices message when some cataloged device is available,
otherwise the heartbeat when the notify-on-success flag is set,
otherwise no message. -/
def composeMessage (device : Device) (notifySuccess : Bool)
    (cartButtonTexts : List String) (now : String) : Option NotificationMsg :=
  if checkDeviceAvailability cartButtonTexts device then
    some (inStockNotification device)
  else if 0 < (checkAllDevicesAvailability cartButtonTexts).length then
    some (othersNotification device (checkAllDevicesAvailability cartButtonTexts))
  else if notifySuccess then some (heartbeatNotification device now)
  else none

/-- `checkSteamDeckStock` of the main script, as a pure function of the
externally supplied inputs: the device code, the optional push client
(with its delivery behaviour), the notify-on-success flag, the outcome
of the scrape step, and the current timestamp string. It returns the
observable events of the run and the error the function re-raises, if
any. The control flow mirrors the script: an unknown device code throws
before the browser is launched; a scrape failure is caught, an error
notification is attempted (its own failure is swallowed) and the
original error is re-thrown; on a successful scrape the branch on the
availability result composes at most one message, and a delivery
failure of that message is caught by the same catch block, which again
attempts an error notification and re-throws the delivery error. -/
def checkSteamDeckStockRun (deviceCode : String)
    (pushover : Option PushClient) (notifySuccess : Bool)
    (scrape : Except String (List String)) (now : String) :
    List Event × Option String :=
  match DEVICES.lookup deviceCode with
  | none => ([], some (unknownDeviceError deviceCode))
  | some device =>
    match scrape with
    | Except.error e =>
        ([Event.scrapeInvoked, Event.notified (errorNotification device e now)],
         some e)
    | Except.ok cartButtonTexts =>
        match composeMessage device notifySuccess cartButtonTexts now with
        | none => ([Event.scrapeInvoked], none)
        | some m =>
          match sendMsg pushover m with
          | Except.ok _ => ([Event.scrapeInvoked, Event.notified m], none)
          | Except.error ne =>
              ([Event.scrapeInvoked, Event.notified m,
                Event.notified (errorNotification device ne now)], some ne)

/-- The process exit code of the entry point of the main script: 0 when
`checkSteamDeckStock` resolves, 1 when it re-raises an error. -/
def runExitCode (deviceCode : String) (pushover : Option PushClient)
    (notifySuccess : Bool) (scrape : Except String (List String))
    (now : String) : Nat :=
  match (checkSteamDeckStockRun deviceCode pushover notifySuccess scrape now).2 with
  | none => 0
  | some _ => 1

/-- One entry of the device catalog of the older script variant, whose
matching policy is search-term based. -/
structure DeviceA where
  name : String
  searchTerms : List String
  priority : Int
  sound : String
deriving Repr, DecidableEq

/-- Catalog entry for code oled-512 of the older variant. -/
def oled512DeviceA : DeviceA :=
  ⟨"Steam Deck OLED 512GB", ["Steam Deck 512 GB OLED", "Add to cart"], 1, "magic"⟩

/-- Catalog entry for code oled-1tb of the older variant. -/
def oled1tbDeviceA : DeviceA :=
  ⟨"Steam Deck OLED 1TB", ["Steam Deck 1 TB OLED", "Add to cart"], 1, "magic"⟩

/-- Catalog entry for code lcd-256 of the older variant. -/
def lcd256DeviceA : DeviceA :=
  ⟨"Steam Deck LCD 256GB", ["Steam Deck 256 GB", "Add to cart"], 0, "pushover"⟩

/-- Catalog entry for code lcd-512 of the older variant. -/
def lcd512DeviceA : DeviceA :=
  ⟨"Steam Deck LCD 512GB", ["Steam Deck 512 GB", "Add to cart"], 0, "pushover"⟩

/-- The device catalog of the older variant, in declaration order. -/
def DEVICES_A : List (String × DeviceA) :=
  [("oled-512", oled512DeviceA), ("oled-1tb", oled1tbDeviceA),
   ("lcd-256", lcd256DeviceA), ("lcd-512", lcd512DeviceA)]

/-- `checkDeviceAvailability` of the older variant: some cart-button
text contains every configured search term. -/
def checkDeviceAvailabilityA (cartButtonTexts : List String) (device : DeviceA) : Bool :=
  cartButtonTexts.any (fun buttonText =>
    device.searchTerms.all (fun term => includes buttonText term))

/-- The in-stock message of the older variant for the target device. -/
def inStockNotificationA (device : DeviceA) : NotificationMsg :=
  { message := "🎉 " ++ device.name ++ " is now available for purchase!\n\nCheck: " ++ STORE_URL,
    title := "🚨 " ++ strToUpper device.name ++ " IN STOCK! 🚨",
    priority := device.priority,
    sound := device.sound }

/-- The error message of the older variant, composed in its catch block
(sound defaulted, priority 0). -/
def errorNotificationA (errMsg : String) : NotificationMsg :=
  { message := "Steam Deck checker encountered an error: " ++ errMsg,
    title := "Steam Deck Checker Error",
    priority := 0,
    sound := "pushover" }

/-- The configuration error text of the older variant for an unknown
device code. -/
def unknownDeviceErrorA (deviceCode : String) : String :=
  "Unknown device code: " ++ deviceCode ++ ". Available: " ++ joinWith ", " (DEVICES_A.map (fun p => p.1))

/-- `checkSteamDeckStock` of the older variant, as a pure function of
the externally supplied inputs. This variant only notifies about the
target device; its catch block fires the error notification without
awaiting it and re-throws the original error. -/
def checkSteamDeckStockRunA (deviceCode : String)
    (pushover : Option PushClient)
    (scrape : Except String (List String)) : List Event × Option String :=
  match DEVICES_A.lookup deviceCode with
  | none => ([], some (unknownDeviceErrorA deviceCode))
  | some device =>
    match scrape with
    | Except.error e =>
        ([Event.scrapeInvoked, Event.notified (errorNotificationA e)], some e)
    | Except.ok cartButtonTexts =>
      if checkDeviceAvailabilityA cartButtonTexts device then
        match sendMsg pushover (inStockNotificationA device) with
        | Except.ok _ =>
            ([Event.scrapeInvoked,
              Event.notified (inStockNotificationA device)], none)
        | Except.error ne =>
            ([Event.scrapeInvoked,
              Event.notified (inStockNotificationA device),
              Event.notified (errorNotificationA ne)], some ne)
      else ([Event.scrapeInvoked], none)

/-- Modelled from the spec: the tagged matching-policy variant that a
DeviceSpec carries. The code itself has no such field; each script
variant hardcodes one policy for its whole catalog, and this type names
the two policies so that both variants can be compared with it. -/
inductive MatchPolicy where
  | allTerms : List String → MatchPolicy
  | presentNotOutOfStock : String → MatchPolicy
deriving Repr, DecidableEq

/-- Modelled from the spec: evaluate a tagged matching policy against
the scraped texts (existentially over the texts, as both scripts do). -/
def matchesPolicy (policy : MatchPolicy) (texts : List String) : Bool :=
  match policy with
  | MatchPolicy.allTerms terms =>
      texts.any (fun t => terms.all (fun term => includes t term))
  | MatchPolicy.presentNotOutOfStock dname =>
      texts.any (fun t => includes t dname && !(includes t "Out of stock"))

/-- Modelled from the spec: a DeviceSpec carrying its own policy
choice together with the notification hints. -/
structure SpecDevice where
  code : String
  displayName : String
  policy : MatchPolicy
  priority : Int
  sound : String
deriving Repr, DecidableEq

/-- Modelled from the spec: classify every DeviceSpec of a catalog by
its own policy. -/
def classifySpec (catalog : List SpecDevice) (texts : List String) : List String :=
  (catalog.filter (fun d => matchesPolicy d.policy texts)).map (fun d => d.code)

/-- A catalog mixing the two policies, one device per policy. -/
def mixedCatalog : List SpecDevice :=
  [⟨"oled-512", "Steam Deck OLED 512GB",
      MatchPolicy.presentNotOutOfStock "Steam Deck OLED 512GB", 1, "magic"⟩,
   ⟨"lcd-256", "Steam Deck LCD 256GB",
      MatchPolicy.allTerms ["Steam Deck 256 GB", "Add to cart"], 0, "pushover"⟩]

theorem checkDeviceAvailability_iff (texts : List String) (device : Device) :
    checkDeviceAvailability texts device = true ↔
      ∃ t ∈ texts, device.name.data <:+: t.data ∧
        ¬ ("Out of stock".data <:+: t.data) := by
  simp [checkDeviceAvailability, includes, List.any_eq_true]

theorem devices_keys_nodup : (DEVICES.map Prod.fst).Nodup := by decide

theorem assoc_val_eq {l : List (String × Device)}
    (hnd : (l.map Prod.fst).Nodup) {k : String} {v v' : Device}
    (hv : (k, v) ∈ l) (hv' : (k, v') ∈ l) : v = v' := by
  induction l with
  | nil => cases hv
  | cons p t ih =>
    obtain ⟨a, b⟩ := p
    rw [List.map_cons, List.nodup_cons] at hnd
    rcases List.mem_cons.mp hv with h1 | h1 <;>
      rcases List.mem_cons.mp hv' with h2 | h2
    · injection h1 with hk1 hval1
      injection h2 with hk2 hval2
      exact hval1.trans hval2.symm
    · exfalso
      injection h1 with hk1 hval1
      subst hk1
      apply hnd.1
      simpa using List.mem_map_of_mem Prod.fst h2
    · exfalso
      injection h2 with hk2 hval2
      subst hk2
      apply hnd.1
      simpa using List.mem_map_of_mem Prod.fst h1
    · exact ih hnd.2 h1 h2

theorem mem_checkAll_iff {texts : List String} {code : String} {device : Device}
    (h : (code, device) ∈ DEVICES) :
    code ∈ checkAllDevicesAvailability texts ↔
      checkDeviceAvailability texts device = true := by
  constructor
  · intro hm
    simp only [checkAllDevicesAvailability, List.mem_map, List.mem_filter] at hm
    obtain ⟨⟨c, d⟩, ⟨hmem, hpred⟩, hcode⟩ := hm
    cases hcode
    have hd : d = device := assoc_val_eq devices_keys_nodup hmem h
    exact hd ▸ hpred
  · intro hp
    simp only [checkAllDevicesAvailability, List.mem_map, List.mem_filter]
    exact ⟨(code, device), ⟨h, hp⟩, rfl⟩

/-- Claim C1: for every sequence of cart-button texts and every device in
the catalog, the device code appears in the all-devices classification
iff some text contains the device display name and does not contain
"Out of stock"; and classifying the empty text sequence yields the empty
result. -/
theorem c1_classification_iff :
    (∀ (texts : List String) (code : String) (device : Device),
        (code, device) ∈ DEVICES →
        (code ∈ checkAllDevicesAvailability texts ↔
          ∃ t ∈ texts, device.name.data <:+: t.data ∧
            ¬ ("Out of stock".data <:+: t.data)))
    ∧ checkAllDevicesAvailability [] = [] := by
  refine ⟨fun texts code device h => ?_, rfl⟩
  exact (mem_checkAll_iff h).trans (checkDeviceAvailability_iff texts device)

/-- Witness for C1 at a concrete catalog entry and text list. -/
theorem c1_classification_iff_witness :
    ("oled-512", oled512Device) ∈ DEVICES ∧
    ("oled-512" ∈ checkAllDevicesAvailability ["Steam Deck OLED 512GB Add to cart"] ↔
      ∃ t ∈ ["Steam Deck OLED 512GB Add to cart"],
        oled512Device.name.data <:+: t.data ∧
          ¬ (("Out of stock" : String).data <:+: t.data)) :=
  ⟨by decide,
   c1_classification_iff.1 ["Steam Deck OLED 512GB Add to cart"] "oled-512"
     oled512Device (by decide)⟩

theorem lookup_mem {β : Type} {l : List (String × β)} {k : String} {v : β}
    (h : l.lookup k = some v) : (k, v) ∈ l := by
  induction l with
  | nil => cases h
  | cons p t ih =>
    obtain ⟨a, b⟩ := p
    simp only [List.lookup] at h
    split at h
    · next heq =>
      injection h with hv
      have ha : k = a := by simpa using heq
      subst ha
      subst hv
      exact List.mem_cons_self _ _
    · exact List.mem_cons_of_mem _ (ih h)

theorem mem_data_in_joined (names : List String) (n : String) (hn : n ∈ names) :
    n.data <:+: (joinWith "\n" (names.map (fun x => "• " ++ x))).data := by
  induction names with
  | nil => cases hn
  | cons x xs ih =>
    rcases List.mem_cons.mp hn with rfl | hmem
    · cases xs with
      | nil =>
        refine ⟨("• " : String).data, [], ?_⟩
        simp [joinWith, String.data_append]
      | cons z zs =>
        refine ⟨("• " : String).data,
          (("\n" : String) ++ joinWith "\n" ((z :: zs).map (fun x => "• " ++ x))).data, ?_⟩
        simp [joinWith, String.data_append, List.append_assoc]
    · cases xs with
      | nil => cases hmem
      | cons z zs =>
        refine (ih hmem).trans ?_
        refine ⟨(("• " ++ x) ++ "\n").data, [], ?_⟩
        simp [joinWith, String.data_append, List.append_assoc]

theorem othersNotification_title (d : Device) (l : List String) :
    (othersNotification d l).title = "📦 Other Steam Decks Available" := rfl

theorem errorNotification_title (d : Device) (e t : String) :
    (errorNotification d e t).title = "🔥 Steam Deck Checker Error" := rfl

theorem error_beq_others_title :
    (("🔥 Steam Deck Checker Error" : String) == "📦 Other Steam Decks Available")
      = false := by decide

/-- Claim C2: whenever the target device is not available but at least
one cataloged device is, the run makes exactly one notification call
whose title is the other-devices title; that message has priority 0
regardless of every other input, and its body contains the display name
of every available device. -/
theorem c2_other_devices_notification (deviceCode : String) (device : Device)
    (pushover : Option PushClient) (notifySuccess : Bool)
    (texts : List String) (now : String)
    (hdev : DEVICES.lookup deviceCode = some device)
    (htarget : checkDeviceAvailability texts device = false)
    (hother : checkAllDevicesAvailability texts ≠ []) :
    ∃ m : NotificationMsg,
      (notifiedMsgs (checkSteamDeckStockRun deviceCode pushover notifySuccess
            (Except.ok texts) now).1).filter
          (fun msg => msg.title == "📦 Other Steam Decks Available") = [m]
      ∧ m.priority = 0
      ∧ (∀ r, sendMsg pushover m = Except.ok r →
          notifiedMsgs (checkSteamDeckStockRun deviceCode pushover notifySuccess
            (Except.ok texts) now).1 = [m])
      ∧ ∀ code ∈ checkAllDevicesAvailability texts, ∀ d : Device,
          DEVICES.lookup code = some d → d.name.data <:+: m.message.data := by
  have hlen : 0 < (checkAllDevicesAvailability texts).length :=
    List.length_pos.mpr hother
  have hm : composeMessage device notifySuccess texts now
      = some (othersNotification device (checkAllDevicesAvailability texts)) := by
    simp [composeMessage, htarget, hlen]
  refine ⟨othersNotification device (checkAllDevicesAvailability texts), ?_, rfl, ?_, ?_⟩
  · cases hsend : sendMsg pushover
        (othersNotification device (checkAllDevicesAvailability texts)) with
    | ok r =>
      simp only [checkSteamDeckStockRun, hdev, hm, hsend]
      simp [notifiedMsgs, eventMsg, List.filter_cons, othersNotification_title]
    | error ne =>
      simp only [checkSteamDeckStockRun, hdev, hm, hsend]
      simp [notifiedMsgs, eventMsg, List.filter_cons, othersNotification_title,
        errorNotification_title, error_beq_others_title]
  · intro r hr
    simp only [checkSteamDeckStockRun, hdev, hm, hr]
    simp [notifiedMsgs, eventMsg]
  · intro code hcode d hd
    have hname : deviceName code = d.name := by simp [deviceName, hd]
    have hnames : d.name ∈ (checkAllDevicesAvailability texts).map deviceName :=
      hname ▸ List.mem_map_of_mem deviceName hcode
    have h1 := mem_data_in_joined ((checkAllDevicesAvailability texts).map deviceName)
      d.name hnames
    refine h1.trans ?_
    refine ⟨("ℹ️ Your monitored device (" ++ device.name ++ ") is not available, but other models are in stock:\n\n" : String).data,
      ("\n\nCheck: " ++ STORE_URL : String).data, ?_⟩
    simp [othersNotification, String.data_append, List.append_assoc]

/-- Witness for C2: monitored device oled-512, only the LCD 256GB model
purchasable. -/
theorem c2_other_devices_notification_witness :
    (DEVICES.lookup "oled-512" = some oled512Device
      ∧ checkDeviceAvailability ["Steam Deck LCD 256GB Add to cart"] oled512Device = false
      ∧ checkAllDevicesAvailability ["Steam Deck LCD 256GB Add to cart"] ≠ [])
    ∧ ∃ m : NotificationMsg,
      (notifiedMsgs (checkSteamDeckStockRun "oled-512" none false
            (Except.ok ["Steam Deck LCD 256GB Add to cart"]) "2026-10-12").1).filter
          (fun msg => msg.title == "📦 Other Steam Decks Available") = [m]
      ∧ m.priority = 0
      ∧ (∀ r, sendMsg none m = Except.ok r →
          notifiedMsgs (checkSteamDeckStockRun "oled-512" none false
            (Except.ok ["Steam Deck LCD 256GB Add to cart"]) "2026-10-12").1 = [m])
      ∧ ∀ code ∈ checkAllDevicesAvailability ["Steam Deck LCD 256GB Add to cart"],
          ∀ d : Device, DEVICES.lookup code = some d →
            d.name.data <:+: m.message.data :=
  ⟨⟨by decide, by decide, by decide⟩,
   c2_other_devices_notification "oled-512" oled512Device none false
     ["Steam Deck LCD 256GB Add to cart"] "2026-10-12"
     (by decide) (by decide) (by decide)⟩

/-- Claim C3: when no cataloged device is available, the run makes a
priority-0 heartbeat notification call iff the notify-on-success flag
is set; with the flag unset the run makes no notification call at all
and exits with code 0. -/
theorem c3_heartbeat_iff_flag (deviceCode : String) (device : Device)
    (pushover : Option PushClient) (notifySuccess : Bool)
    (texts : List String) (now : String)
    (hdev : DEVICES.lookup deviceCode = some device)
    (hnone : checkAllDevicesAvailability texts = []) :
    ((∃ m, m ∈ notifiedMsgs (checkSteamDeckStockRun deviceCode pushover
          notifySuccess (Except.ok texts) now).1
        ∧ m.title = "✅ Steam Deck Check Complete" ∧ m.priority = 0)
      ↔ notifySuccess = true)
    ∧ (notifySuccess = false →
        (checkSteamDeckStockRun deviceCode pushover notifySuccess
            (Except.ok texts) now).1 = [Event.scrapeInvoked]
        ∧ (checkSteamDeckStockRun deviceCode pushover notifySuccess
            (Except.ok texts) now).2 = none
        ∧ runExitCode deviceCode pushover notifySuccess (Except.ok texts) now = 0) := by
  have hmem : (deviceCode, device) ∈ DEVICES := lookup_mem hdev
  have htarget : checkDeviceAvailability texts device = false := by
    cases hb : checkDeviceAvailability texts device with
    | false => rfl
    | true =>
      exfalso
      have := (mem_checkAll_iff hmem).mpr hb
      rw [hnone] at this
      cases this
  have hlen : ¬ (0 < (checkAllDevicesAvailability texts).length) := by
    rw [hnone]
    simp
  cases notifySuccess with
  | false =>
    have hm : composeMessage device false texts now = none := by
      simp [composeMessage, htarget, hlen]
    constructor
    · constructor
      · intro hex
        obtain ⟨m, hmm, _, _⟩ := hex
        simp [checkSteamDeckStockRun, hdev, hm, notifiedMsgs, eventMsg] at hmm
      · intro hfalse
        cases hfalse
    · intro _
      refine ⟨?_, ?_, ?_⟩ <;>
        simp [checkSteamDeckStockRun, runExitCode, hdev, hm]
  | true =>
    have hm : composeMessage device true texts now
        = some (heartbeatNotification device now) := by
      simp [composeMessage, htarget, hlen]
    constructor
    · constructor
      · intro _
        rfl
      · intro _
        refine ⟨heartbeatNotification device now, ?_, rfl, rfl⟩
        cases hsend : sendMsg pushover (heartbeatNotification device now) with
        | ok r =>
          simp [checkSteamDeckStockRun, hdev, hm, hsend, notifiedMsgs, eventMsg]
        | error ne =>
          simp [checkSteamDeckStockRun, hdev, hm, hsend, notifiedMsgs, eventMsg]
    · intro hfalse
      cases hfalse

/-- Witness for C3: all cart buttons out of stock, flag unset. -/
theorem c3_heartbeat_iff_flag_witness :
    (DEVICES.lookup "oled-512" = some oled512Device
      ∧ checkAllDevicesAvailability ["Steam Deck LCD 256GB Out of stock"] = [])
    ∧ (false = false →
        (checkSteamDeckStockRun "oled-512" none false
            (Except.ok ["Steam Deck LCD 256GB Out of stock"]) "2026-10-12").1
          = [Event.scrapeInvoked]
        ∧ (checkSteamDeckStockRun "oled-512" none false
            (Except.ok ["Steam Deck LCD 256GB Out of stock"]) "2026-10-12").2 = none
        ∧ runExitCode "oled-512" none false
            (Except.ok ["Steam Deck LCD 256GB Out of stock"]) "2026-10-12" = 0) :=
  ⟨⟨by decide, by decide⟩,
   (c3_heartbeat_iff_flag "oled-512" oled512Device none false
     ["Steam Deck LCD 256GB Out of stock"] "2026-10-12"
     (by decide) (by decide)).2⟩

/-- Claim C4: an unknown device code makes the run fail with the
configuration error before anything else happens: the event list is
empty (in particular the scraper is never invoked), the propagated
error text starts with the unknown-device phrase, and the exit code
is 1. -/
theorem c4_unknown_device (deviceCode : String) (pushover : Option PushClient)
    (notifySuccess : Bool) (scrape : Except String (List String)) (now : String)
    (h : DEVICES.lookup deviceCode = none) :
    checkSteamDeckStockRun deviceCode pushover notifySuccess scrape now
      = ([], some (unknownDeviceError deviceCode))
    ∧ Event.scrapeInvoked ∉
        (checkSteamDeckStockRun deviceCode pushover notifySuccess scrape now).1
    ∧ ("Unknown device code: " : String).data <+: (unknownDeviceError deviceCode).data
    ∧ runExitCode deviceCode pushover notifySuccess scrape now = 1 := by
  refine ⟨?_, ?_, ?_, ?_⟩
  · simp [checkSteamDeckStockRun, h]
  · simp [checkSteamDeckStockRun, h]
  · refine ⟨(deviceCode ++ ". Available: " ++ joinWith ", " (DEVICES.map (fun p => p.1))).data, ?_⟩
    simp [unknownDeviceError, String.data_append, List.append_assoc]
  · simp [runExitCode, checkSteamDeckStockRun, h]

/-- Witness for C4 at the unknown code bogus. -/
theorem c4_unknown_device_witness :
    DEVICES.lookup "bogus" = none
    ∧ checkSteamDeckStockRun "bogus" none false (Except.ok []) ""
        = ([], some (unknownDeviceError "bogus"))
    ∧ Event.scrapeInvoked ∉
        (checkSteamDeckStockRun "bogus" none false (Except.ok []) "").1
    ∧ ("Unknown device code: " : String).data <+: (unknownDeviceError "bogus").data
    ∧ runExitCode "bogus" none false (Except.ok []) "" = 1 :=
  ⟨by decide,
   c4_unknown_device "bogus" none false (Except.ok []) "" (by decide)⟩

/-- Claim C5: on a scrape failure the run makes exactly one
notification call, the composed error message, and then re-raises the
original scrape error; this holds for every push-client behaviour, so a
failing error notification can never replace the original error, and
the exit code is 1. -/
theorem c5_scrape_error_propagation (deviceCode : String) (device : Device)
    (pushover : Option PushClient) (notifySuccess : Bool) (e now : String)
    (hdev : DEVICES.lookup deviceCode = some device) :
    checkSteamDeckStockRun deviceCode pushover notifySuccess (Except.error e) now
      = ([Event.scrapeInvoked, Event.notified (errorNotification device e now)],
          some e)
    ∧ (errorNotification device e now).title = "🔥 Steam Deck Checker Error"
    ∧ runExitCode deviceCode pushover notifySuccess (Except.error e) now = 1 := by
  refine ⟨?_, rfl, ?_⟩
  · simp [checkSteamDeckStockRun, hdev]
  · simp [runExitCode, checkSteamDeckStockRun, hdev]

/-- Witness for C5: a navigation timeout with a push client whose every
delivery fails. -/
theorem c5_scrape_error_propagation_witness :
    DEVICES.lookup "oled-512" = some oled512Device
    ∧ checkSteamDeckStockRun "oled-512" (some (fun _ => Except.error "delivery failed"))
        false (Except.error "Navigation timeout of 30000 ms exceeded") "2026-10-12"
      = ([Event.scrapeInvoked,
          Event.notified (errorNotification oled512Device
            "Navigation timeout of 30000 ms exceeded" "2026-10-12")],
          some "Navigation timeout of 30000 ms exceeded")
    ∧ (errorNotification oled512Device
        "Navigation timeout of 30000 ms exceeded" "2026-10-12").title
      = "🔥 Steam Deck Checker Error"
    ∧ runExitCode "oled-512" (some (fun _ => Except.error "delivery failed"))
        false (Except.error "Navigation timeout of 30000 ms exceeded") "2026-10-12" = 1 :=
  ⟨by decide,
   c5_scrape_error_propagation "oled-512" oled512Device
     (some (fun _ => Except.error "delivery failed")) false
     "Navigation timeout of 30000 ms exceeded" "2026-10-12" (by decide)⟩

/-- Claim C6: without a push client, both notification functions are
pure no-ops: for every message, title, priority and sound they return
success with no delivery result and cannot raise an error. -/
theorem c6_notify_noop_without_credentials :
    (∀ (message title : String) (priority : Int) (sound : String),
        sendNotification none message title priority sound = Except.ok none)
    ∧ (∀ (message title : String) (priority : Int),
        sendNotificationLegacy none message title priority = Except.ok none) :=
  ⟨fun _ _ _ _ => rfl, fun _ _ _ => rfl⟩

/-- Counterexample to C7 as stated: under the all-terms policy of the
older variant, the scenario text for the OLED 512GB model also
satisfies the search terms of the cataloged LCD 512GB model, so the
availability result is not exactly the singleton oled-512. -/
theorem c7_counterexample :
    ("lcd-512", lcd512DeviceA) ∈ DEVICES_A
    ∧ "lcd-512" ≠ "oled-512"
    ∧ checkDeviceAvailabilityA ["Steam Deck 512 GB OLED Add to cart"]
        lcd512DeviceA = true := by
  decide

theorem inStockNotificationA_title_instock :
    includes (inStockNotificationA oled512DeviceA).title "IN STOCK" = true := by
  decide

theorem errorNotificationA_no_instock (e : String) :
    includes (errorNotificationA e).title "IN STOCK" = false := by
  have : (errorNotificationA e).title = "Steam Deck Checker Error" := rfl
  rw [this]
  decide

/-- Claim C7 amended: under the all-terms policy, on the scenario text
for the OLED 512GB model the classified devices are exactly oled-512
and lcd-512 (the LCD 512GB search terms are a subset of the text), and
the run for target oled-512 makes exactly one notification call whose
title contains the phrase IN STOCK, with priority 1. -/
theorem c7_amended_scenario_one (pushover : Option PushClient) :
    (∀ (code : String) (device : DeviceA), (code, device) ∈ DEVICES_A →
        (checkDeviceAvailabilityA ["Steam Deck 512 GB OLED Add to cart"] device = true
          ↔ (code = "oled-512" ∨ code = "lcd-512")))
    ∧ ∃ m : NotificationMsg,
        (notifiedMsgs (checkSteamDeckStockRunA "oled-512" pushover
              (Except.ok ["Steam Deck 512 GB OLED Add to cart"])).1).filter
            (fun msg => includes msg.title "IN STOCK") = [m]
        ∧ m.priority = 1
        ∧ includes m.title "IN STOCK" = true := by
  constructor
  · intro code device h
    simp only [DEVICES_A, List.mem_cons, List.not_mem_nil, or_false] at h
    rcases h with h | h | h | h <;>
      (injection h with h1 h2; subst h1; subst h2; decide)
  · have hlook : DEVICES_A.lookup "oled-512" = some oled512DeviceA := by decide
    have havail : checkDeviceAvailabilityA ["Steam Deck 512 GB OLED Add to cart"]
        oled512DeviceA = true := by decide
    refine ⟨inStockNotificationA oled512DeviceA, ?_, rfl, inStockNotificationA_title_instock⟩
    cases hsend : sendMsg pushover (inStockNotificationA oled512DeviceA) with
    | ok r =>
      simp only [checkSteamDeckStockRunA, hlook, havail, hsend, if_true]
      simp [notifiedMsgs, eventMsg, List.filter_cons, inStockNotificationA_title_instock]
    | error ne =>
      simp only [checkSteamDeckStockRunA, hlook, havail, hsend, if_true]
      simp [notifiedMsgs, eventMsg, List.filter_cons, inStockNotificationA_title_instock,
        errorNotificationA_no_instock]

/-- Claim C8: both matching policies of the two script variants are
instances of one per-DeviceSpec tagged strategy: the main-script
checker is exactly the present-and-not-out-of-stock policy at the
device display name, the older-variant checker is exactly the
all-terms policy at the device search terms, and a single mixed catalog
classifies each device by its own policy (the policy-b device matches
without the add-to-cart phrase, the policy-a device needs it, and the
out-of-stock marker suppresses only the policy-b device). -/
theorem c8_policy_per_device :
    (∀ (texts : List String) (device : Device),
        checkDeviceAvailability texts device =
          matchesPolicy (MatchPolicy.presentNotOutOfStock device.name) texts)
    ∧ (∀ (texts : List String) (device : DeviceA),
        checkDeviceAvailabilityA texts device =
          matchesPolicy (MatchPolicy.allTerms device.searchTerms) texts)
    ∧ classifySpec mixedCatalog
        ["Steam Deck OLED 512GB", "Steam Deck 256 GB Add to cart"]
        = ["oled-512", "lcd-256"]
    ∧ classifySpec mixedCatalog
        ["Steam Deck OLED 512GB Out of stock", "Steam Deck 256 GB"] = []
    ∧ classifySpec mixedCatalog
        ["Steam Deck OLED 512GB", "Steam Deck 256 GB"] = ["oled-512"] :=
  ⟨fun _ _ => rfl, fun _ _ => rfl, by decide, by decide, by decide⟩

theorem any_congr_of_perm {p : String → Bool} {t1 t2 : List String}
    (h : t1.Perm t2) : t1.any p = t2.any p := by
  rw [Bool.eq_iff_iff]
  simp only [List.any_eq_true]
  exact ⟨fun ⟨x, hx, hp⟩ => ⟨x, h.mem_iff.mp hx, hp⟩,
    fun ⟨x, hx, hp⟩ => ⟨x, h.mem_iff.mpr hx, hp⟩⟩

/-- Claim C9: the all-devices classification is invariant under
permutation of the cart-button texts, and as a pure function it returns
the same output on every evaluation at the same input. -/
theorem c9_perm_deterministic :
    (∀ t1 t2 : List String, t1.Perm t2 →
        checkAllDevicesAvailability t1 = checkAllDevicesAvailability t2)
    ∧ (∀ t : List String,
        checkAllDevicesAvailability t = checkAllDevicesAvailability t) := by
  refine ⟨fun t1 t2 h => ?_, fun t => rfl⟩
  unfold checkAllDevicesAvailability
  congr 1
  apply List.filter_congr
  intro p hp
  unfold checkDeviceAvailability
  exact any_congr_of_perm h

/-- Witness for C9 at a concrete two-text swap. -/
theorem c9_perm_deterministic_witness :
    (["Steam Deck LCD 256GB Out of stock", "Steam Deck OLED 512GB Add to cart"] :
        List String).Perm
      ["Steam Deck OLED 512GB Add to cart", "Steam Deck LCD 256GB Out of stock"]
    ∧ checkAllDevicesAvailability
        ["Steam Deck LCD 256GB Out of stock", "Steam Deck OLED 512GB Add to cart"]
      = checkAllDevicesAvailability
        ["Steam Deck OLED 512GB Add to cart", "Steam Deck LCD 256GB Out of stock"] :=
  ⟨List.Perm.swap _ _ _,
   c9_perm_deterministic.1 _ _ (List.Perm.swap _ _ _)⟩

/-- Claim C10: extending the text sequence can only grow the
availability result: a code classified available on some texts stays
available when further texts are appended. -/
theorem c10_monotone_append (texts extra : List String) (code : String)
    (h : code ∈ checkAllDevicesAvailability texts) :
    code ∈ checkAllDevicesAvailability (texts ++ extra) := by
  simp only [checkAllDevicesAvailability, List.mem_map, List.mem_filter] at h ⊢
  obtain ⟨⟨c, d⟩, ⟨hmem, hpred⟩, hcode⟩ := h
  refine ⟨(c, d), ⟨hmem, ?_⟩, hcode⟩
  unfold checkDeviceAvailability at hpred ⊢
  rw [List.any_append, hpred, Bool.true_or]

/-- Witness for C10 at a concrete extension. -/
theorem c10_monotone_append_witness :
    "oled-512" ∈ checkAllDevicesAvailability ["Steam Deck OLED 512GB Add to cart"]
    ∧ "oled-512" ∈ checkAllDevicesAvailability
        (["Steam Deck OLED 512GB Add to cart"] ++ ["Steam Deck LCD 256GB Out of stock"]) :=
  ⟨by decide,
   c10_monotone_append ["Steam Deck OLED 512GB Add to cart"]
     ["Steam Deck LCD 256GB Out of stock"] "oled-512" (by decide)⟩

end SteamDeck
